import Mathlib

/-!
Verification development for a client-side movie discovery application.

The application consists of:
* `App.jsx` — the fetch-and-merge pipeline `fetchMovies`, which queries the
  TMDB provider, filters results, and reports typed user-facing errors;
* `appwrite.js` — the popularity-ledger client: `updateSearchCount` (Record)
  and `getTrendingMovies` (TopTrending) over a remote document store.

The JavaScript source is shallowly embedded: asynchronous effects become
explicit outcome parameters, mutable component state becomes an `AppState`
record threaded through a pure transition function, and the ordered sequence
of observable effects (state setters, network request, awaited ledger
resolution, console warnings) is reified as an event trace.
-/

namespace MovieApp

/-- JavaScript truthiness for a nullable string: `null`/`undefined` and the
empty string are falsy, every other string is truthy. -/
def jsTruthy : Option String → Bool
  | none => false
  | some s => s ≠ ""

/-- Character-list prefix test used by the substring check below. -/
def leadMatch : List Char → List Char → Bool
  | [], _ => true
  | _ :: _, [] => false
  | p :: ps, c :: cs => p = c && leadMatch ps cs

/-- Does `pat` occur as a contiguous run inside `l`? -/
def subListOccurs (pat : List Char) : List Char → Bool
  | [] => pat.isEmpty
  | c :: rest => leadMatch pat (c :: rest) || subListOccurs pat rest

/-- Model of JavaScript `s.includes(pat)`. -/
def strIncludes (s pat : String) : Bool :=
  subListOccurs pat.data s.data

/-- The characters JavaScript `trim` strips from both ends. -/
def isJsWhitespace (c : Char) : Bool :=
  c = ' ' || c = '\t' || c = '\n' || c = '\r' || c = '\x0b' || c = '\x0c'

/-- Model of JavaScript `s.trim()`: strip whitespace from both ends. -/
def jsTrim (s : String) : String :=
  ⟨((s.data.dropWhile isJsWhitespace).reverse.dropWhile isJsWhitespace).reverse⟩

/-- Model of JavaScript `s.toLowerCase()` (ASCII range). -/
def jsToLower (s : String) : String :=
  ⟨s.data.map Char.toLower⟩

/-- A movie record as returned by the TMDB provider (`results` array entry). -/
structure Movie where
  id : Nat
  title : String
  poster_path : Option String
  release_date : Option String
  vote_average : Option ℚ
  deriving Repr, DecidableEq

/-- The parsed JSON body of a 2xx provider response: `data.results` may be
absent (`null`/missing key) or an array. -/
structure TmdbData where
  results : Option (List Movie)
  deriving Repr, DecidableEq

/-! ## appwrite.js — configuration validation -/

/-- The three document-store configuration identifiers read from the
environment at module load (`PROJECT_ID`, `DATABASE_ID`, `COLLECTION_ID`). -/
structure AppwriteEnv where
  projectId : Option String
  databaseId : Option String
  collectionId : Option String
  deriving Repr, DecidableEq

/-- `validateEnvVars` from appwrite.js: collects the names of missing
identifiers and throws (here: returns `.error`) when any is absent. -/
def validateEnvVars (env : AppwriteEnv) : Except String Unit :=
  let missing :=
    (if !jsTruthy env.projectId then ["VITE_APPWRITE_PROJECT_ID"] else []) ++
    (if !jsTruthy env.databaseId then ["VITE_APPWRITE_DATABASE_ID"] else []) ++
    (if !jsTruthy env.collectionId then ["VITE_APPWRITE_COLLECTION_ID"] else [])
  if missing.length > 0 then
    Except.error ("Missing required environment variables: " ++ String.intercalate ", " missing)
  else
    Except.ok ()

/-- Module-load sequence of appwrite.js: `validateEnvVars()` runs before the
client and database handles are constructed, so no ledger operation is
reachable when validation throws. The successfully initialised module is
represented by the validated environment. -/
def appwriteModuleInit (env : AppwriteEnv) : Except String AppwriteEnv :=
  Except.map (fun _ => env) (validateEnvVars env)

/-! ## appwrite.js — document store model -/

/-- A document of the search-count collection. -/
structure SearchDoc where
  id : Nat
  searchTerm : String
  count : Nat
  movie_id : Nat
  title : String
  poster_url : Option String
  release_date : Option String
  vote_average : ℚ
  firstSearched : String
  lastSearched : String
  deriving Repr, DecidableEq

/-- The remote collection: a list of documents plus a fresh-id source
modelling `ID.unique()`. -/
structure Store where
  docs : List SearchDoc
  nextId : Nat
  deriving Repr, DecidableEq

def emptyStore : Store := { docs := [], nextId := 0 }

/-- Document-store operations attempted by `updateSearchCount`, in order. -/
inductive DbOp
  | listDocs (queryTerm : String)
  | updateDoc (id : Nat)
  | createDoc (id : Nat)
  deriving Repr, DecidableEq

/-- Failure injection for the document store: `ok` means every operation
succeeds, `onList` makes the lookup throw, `onWrite` makes the subsequent
update/create throw. -/
inductive DbFail
  | ok
  | onList
  | onWrite
  deriving Repr, DecidableEq

def tmdbPosterBase : String := "https://image.tmdb.org/t/p/w500"

/-- `movie.poster_path ? base + movie.poster_path : null` with JS truthiness. -/
def posterUrlOf (movie : Movie) : Option String :=
  match movie.poster_path with
  | some s => if s ≠ "" then some (tmdbPosterBase ++ s) else none
  | none => none

/-- `movie.release_date || null` with JS truthiness. -/
def orNullStr : Option String → Option String
  | some s => if s ≠ "" then some s else none
  | none => none

/-- The sanitization applied by `updateSearchCount`:
`searchTerm.trim().toLowerCase()`. -/
def sanitize (term : String) : String := jsToLower (jsTrim term)

/-- The update payload passed to `updateDocument` in `updateSearchCount`:
counter increment, last-seen refresh, and title/poster snapshot refresh. -/
def updatedDocFor (doc : SearchDoc) (mv : Movie) (now : String) : SearchDoc :=
  { doc with
    count := doc.count + 1
    lastSearched := now
    title := mv.title
    poster_url := posterUrlOf mv }

/-- The create payload passed to `createDocument` in `updateSearchCount`. -/
def newDocFor (id : Nat) (sanitizedTerm : String) (mv : Movie) (now : String) :
    SearchDoc :=
  { id := id
    searchTerm := sanitizedTerm
    count := 1
    movie_id := mv.id
    title := mv.title
    poster_url := posterUrlOf mv
    release_date := orNullStr mv.release_date
    vote_average := mv.vote_average.getD 0
    firstSearched := now
    lastSearched := now }

/-- `updateSearchCount(searchTerm, movie)` from appwrite.js, over an explicit
store, timestamp and failure mode. Returns the updated store, the document
returned to the caller (`null` becomes `none`), and the store operations
attempted. The lookup models
`listDocuments(DATABASE_ID, COLLECTION_ID, [equal searchTerm, limit 1])`,
i.e. the first document whose `searchTerm` equals the sanitized term. The
function is total: every failure is caught and surfaces as `none`. -/
def updateSearchCount (store : Store) (searchTerm : String) (movie : Option Movie)
    (now : String) (fail : DbFail) : Store × Option SearchDoc × List DbOp :=
  if searchTerm = "" || movie.isNone then (store, none, [])
  else
    match movie with
    | none => (store, none, [])
    | some mv =>
      let sanitizedTerm := sanitize searchTerm
      if sanitizedTerm = "" then (store, none, [])
      else if fail = DbFail.onList then (store, none, [DbOp.listDocs sanitizedTerm])
      else
        match store.docs.find? (fun d => d.searchTerm = sanitizedTerm) with
        | some doc =>
          if fail = DbFail.onWrite then
            (store, none, [DbOp.listDocs sanitizedTerm, DbOp.updateDoc doc.id])
          else
            let updatedDoc := updatedDocFor doc mv now
            ({ store with
                docs := store.docs.map (fun d => if d.id = doc.id then updatedDoc else d) },
             some updatedDoc,
             [DbOp.listDocs sanitizedTerm, DbOp.updateDoc doc.id])
        | none =>
          if fail = DbFail.onWrite then
            (store, none, [DbOp.listDocs sanitizedTerm, DbOp.createDoc store.nextId])
          else
            let newDoc := newDocFor store.nextId sanitizedTerm mv now
            ({ docs := store.docs ++ [newDoc], nextId := store.nextId + 1 },
             some newDoc,
             [DbOp.listDocs sanitizedTerm, DbOp.createDoc store.nextId])

/-- The stored counter for normalized term `t`: the counter of the first
matching document, `0` when no document matches. -/
def countOf (store : Store) (t : String) : Nat :=
  match store.docs.find? (fun d => d.searchTerm = t) with
  | some doc => doc.count
  | none => 0

/-- One invocation of `updateSearchCount`, with its inputs. -/
structure RecordCall where
  term : String
  movie : Option Movie
  now : String
  fail : DbFail
  deriving Repr, DecidableEq

/-- A call performs the increment for normalized term `t` exactly when its
inputs pass validation, the store operations succeed, and its sanitized term
is `t`. -/
def recordHits (c : RecordCall) (t : String) : Bool :=
  !(c.term = "" || c.movie.isNone) && sanitize c.term ≠ "" &&
    c.fail = DbFail.ok && sanitize c.term = t

/-- The store after one `updateSearchCount` call. -/
def recordStep (store : Store) (c : RecordCall) : Store :=
  (updateSearchCount store c.term c.movie c.now c.fail).1

/-- The store after a sequence of `updateSearchCount` calls. -/
def applyRecords (store : Store) (calls : List RecordCall) : Store :=
  calls.foldl recordStep store

/-- Store well-formedness: document ids are pairwise distinct and below the
fresh-id source. Holds for the empty store and is preserved by every call. -/
def storeWF (store : Store) : Prop :=
  (store.docs.map (fun d => d.id)).Nodup ∧ ∀ d ∈ store.docs, d.id < store.nextId

/-! ## appwrite.js — getTrendingMovies -/

/-- The page size passed to the store by `getTrendingMovies`:
`Query.limit(Math.min(limit, 100))`. -/
def trendingQueryLimit (limit : Nat) : Nat := min limit 100

/-- Counter-descending order on documents. -/
def countGE (a b : SearchDoc) : Prop := b.count ≤ a.count

instance : DecidableRel countGE := fun a b => Nat.decLe b.count a.count

instance : IsTotal SearchDoc countGE := ⟨fun a b => Nat.le_total b.count a.count⟩

instance : IsTrans SearchDoc countGE := ⟨fun _ _ _ h h' => Nat.le_trans h' h⟩

/-- The document list returned by
`listDocuments(DATABASE_ID, COLLECTION_ID, [limit, orderDesc count, greaterThan count 0])`:
the store filters to documents with counter above the threshold, orders them
by counter descending, and returns at most the requested page size. -/
def listTrendingDocs (store : Store) (limit : Nat) : List SearchDoc :=
  (List.insertionSort countGE (store.docs.filter (fun d => 0 < d.count))).take
    (trendingQueryLimit limit)

/-- The transformed record produced by `getTrendingMovies` for each document. -/
structure TrendingMovie where
  id : Nat
  searchTerm : String
  title : String
  movie_id : Nat
  poster_path : Option String
  poster_url : Option String
  count : Nat
  vote_average : ℚ
  release_date : Option String
  lastSearched : String
  deriving Repr, DecidableEq

/-- The `result.documents.map(doc => ...)` transformation in
`getTrendingMovies`. -/
def transformDoc (doc : SearchDoc) : TrendingMovie :=
  { id := doc.id
    searchTerm := doc.searchTerm
    title := doc.title
    movie_id := doc.movie_id
    poster_path :=
      match doc.poster_url with
      | some u => if u ≠ "" then some (u.replace tmdbPosterBase "") else none
      | none => none
    poster_url := doc.poster_url
    count := doc.count
    vote_average := doc.vote_average
    release_date := doc.release_date
    lastSearched := doc.lastSearched }

/-- `getTrendingMovies(limit = 10)` from appwrite.js: on any store failure the
catch branch returns `[]`; on success the retrieved documents are mapped to
`TrendingMovie` records. `dbOk = false` injects a store failure. -/
def getTrendingMovies (store : Store) (dbOk : Bool) (limit : Nat := 10) :
    List TrendingMovie :=
  if dbOk then (listTrendingDocs store limit).map transformDoc
  else []

/-! ## App.jsx — the fetch-and-merge pipeline -/

/-- The component state fields touched by `fetchMovies`. -/
structure AppState where
  movieList : List Movie
  errorMessage : String
  isLoading : Bool
  isRetrying : Bool
  initialLoad : Bool
  deriving Repr, DecidableEq

/-- The two provider endpoints the pipeline selects between. -/
inductive Endpoint
  | searchMovie (query : String)
  | discoverPopular
  deriving Repr, DecidableEq

/-- How the awaited `updateSearchCount` promise settles: it resolves with the
document or `null`, or it rejects with an error message. -/
inductive LedgerOutcome
  | resolved (result : Option SearchDoc)
  | rejected (message : String)
  deriving Repr, DecidableEq

/-- Observable effects of one `fetchMovies` run, in program order. -/
inductive Ev
  | setLoading (b : Bool)
  | setRetrying (b : Bool)
  | setErrorMessage (s : String)
  | setMovieList (l : List Movie)
  | request (e : Endpoint)
  | recordCall (term : String) (movie : Movie)
  | ledgerSettled (o : LedgerOutcome)
  | warn (s : String)
  | setInitialLoad (b : Bool)
  deriving Repr, DecidableEq

/-- Outcome of the awaited provider interaction: the fetch (or the JSON
parse) rejects with an error message, the response is non-2xx, or a parsed
body is obtained. -/
inductive FetchOutcome
  | reject (message : String)
  | httpError (status : Nat) (statusText : String)
  | success (data : TmdbData)
  deriving Repr, DecidableEq

def configErrorMsg : String :=
  "TMDB API key is not configured. Please check your environment variables."

def noResultsMsg (query : String) : String :=
  "No movies found for \"" ++ query ++ "\". Try different keywords."

def noMoviesAvailableMsg : String := "No movies available at the moment."

def genericErrorMsg : String := "Failed to load movies. Please try again later."

def invalidCredentialsMsg : String := "Invalid API credentials. Please check your TMDB API key."

def rateLimitMsg : String := "Too many requests. Please wait a moment and try again."

def networkErrorMsg : String := "Network error. Please check your connection and try again."

/-- The catch branch's user-message selection, pattern-matching the error's
textual description. -/
def classifyCatch (message : String) : String :=
  if strIncludes message "401" then invalidCredentialsMsg
  else if strIncludes message "429" then rateLimitMsg
  else if strIncludes message "Failed to fetch" then networkErrorMsg
  else genericErrorMsg

/-- The error message of the throw raised on a non-2xx response. -/
def httpErrorMessage (status : Nat) (statusText : String) : String :=
  "HTTP " ++ toString status ++ ": " ++ statusText

/-- Lines 101–104 of App.jsx: keep the results carrying a truthy poster
reference, falling back to the full unfiltered list when that filter would
remove everything. -/
def fallbackList (results : List Movie) : List Movie :=
  let moviesWithPosters := results.filter (fun m => jsTruthy m.poster_path)
  if moviesWithPosters.length > 0 then moviesWithPosters else results

/-- The try/catch body of `fetchMovies` after the request has been issued:
branches on the provider outcome, sets the movie list or the error state, and
— on success with a non-empty query — awaits the ledger call, whose rejection
is caught and only logged. -/
def tryBody (st : AppState) (query : String) (outcome : FetchOutcome)
    (ledger : LedgerOutcome) : AppState × List Ev :=
  match outcome with
  | FetchOutcome.reject msg =>
    let m := classifyCatch msg
    ({ st with errorMessage := m, movieList := [] },
     [Ev.setErrorMessage m, Ev.setMovieList []])
  | FetchOutcome.httpError status statusText =>
    let m := classifyCatch (httpErrorMessage status statusText)
    ({ st with errorMessage := m, movieList := [] },
     [Ev.setErrorMessage m, Ev.setMovieList []])
  | FetchOutcome.success data =>
    match data.results with
    | none =>
      let m := if query ≠ "" then noResultsMsg query else noMoviesAvailableMsg
      ({ st with errorMessage := m, movieList := [] },
       [Ev.setErrorMessage m, Ev.setMovieList []])
    | some results =>
      match results with
      | [] =>
        let m := if query ≠ "" then noResultsMsg query else noMoviesAvailableMsg
        ({ st with errorMessage := m, movieList := [] },
         [Ev.setErrorMessage m, Ev.setMovieList []])
      | first :: rest =>
        let newList := fallbackList (first :: rest)
        let st1 := { st with movieList := newList }
        if query ≠ "" then
          match ledger with
          | LedgerOutcome.resolved r =>
            (st1, [Ev.setMovieList newList, Ev.recordCall query first,
                   Ev.ledgerSettled (LedgerOutcome.resolved r)])
          | LedgerOutcome.rejected m =>
            (st1, [Ev.setMovieList newList, Ev.recordCall query first,
                   Ev.ledgerSettled (LedgerOutcome.rejected m),
                   Ev.warn ("Failed to update search count: " ++ m)])
        else
          (st1, [Ev.setMovieList newList])

/-- The `finally` block: clears both busy flags, and on the first load clears
the `initialLoad` flag. `initialLoadAtCall` is the closed-over value. -/
def finallyStep (st : AppState) (initialLoadAtCall : Bool) : AppState × List Ev :=
  let st1 := { st with isLoading := false, isRetrying := false }
  if initialLoadAtCall then
    ({ st1 with initialLoad := false },
     [Ev.setLoading false, Ev.setRetrying false, Ev.setInitialLoad false])
  else
    (st1, [Ev.setLoading false, Ev.setRetrying false])

/-- `fetchMovies(query, isRetry)` from App.jsx as a pure transition on the
component state, producing the final state and the ordered event trace.
`apiKey` is the module-level `API_KEY`, `outcome` the provider interaction's
result, `ledger` how the awaited `updateSearchCount` promise settles. -/
def fetchMovies (st : AppState) (query : String) (isRetry : Bool)
    (apiKey : Option String) (outcome : FetchOutcome) (ledger : LedgerOutcome) :
    AppState × List Ev :=
  if query = "" && !st.initialLoad then (st, [])
  else if !jsTruthy apiKey then
    ({ st with errorMessage := configErrorMsg }, [Ev.setErrorMessage configErrorMsg])
  else
    let busy :=
      if isRetry then ({ st with isRetrying := true }, [Ev.setRetrying true])
      else ({ st with isLoading := true }, [Ev.setLoading true])
    let stB := { busy.1 with errorMessage := "" }
    let endpoint :=
      if query ≠ "" then Endpoint.searchMovie query else Endpoint.discoverPopular
    let body := tryBody stB query outcome ledger
    let fin := finallyStep body.1 st.initialLoad
    (fin.1,
     busy.2 ++ [Ev.setErrorMessage "", Ev.request endpoint] ++ body.2 ++ fin.2)

/-- The value the search effect passes to `fetchMovies` once the debouncer
settles: `useDebounce(searchTerm.trim(), 500)` eventually yields the trimmed
search term. -/
def debouncedQuery (searchTerm : String) : String := jsTrim searchTerm

/-! ## Trace predicates -/

/-- Is this event the resolution of the awaited ledger call? -/
def isLedgerEv : Ev → Bool
  | Ev.ledgerSettled _ => true
  | _ => false

/-- Is this event the clearing of a busy-state flag? -/
def isClearBusyEv : Ev → Bool
  | Ev.setLoading b => !b
  | Ev.setRetrying b => !b
  | _ => false

/-- Is this event the issuing of a provider network request? -/
def isRequestEv : Ev → Bool
  | Ev.request _ => true
  | _ => false

/-- Formal reading of "the busy-state flags are cleared before or
independently of the resolution of the ledger update": either no ledger
resolution occurs within the pipeline run (the call is not awaited), or the
first busy-flag-clearing event precedes the first ledger resolution. -/
def busyClearedBeforeLedger (tr : List Ev) : Bool :=
  match tr.findIdx? isLedgerEv, tr.findIdx? isClearBusyEv with
  | none, _ => true
  | some _, none => false
  | some iL, some iC => iC < iL

/-! ## Shared fixtures for concrete evaluations -/

def sampleMovie : Movie :=
  { id := 1, title := "Batman", poster_path := some "/p.jpg",
    release_date := some "2022-03-01", vote_average := some 7 }

def sampleNoPoster : Movie :=
  { id := 2, title := "Ghost", poster_path := none,
    release_date := none, vote_average := none }

def sampleState : AppState :=
  { movieList := [], errorMessage := "", isLoading := false,
    isRetrying := false, initialLoad := false }

/-- A stored search-count document used in concrete evaluations. -/
def sampleDoc : SearchDoc :=
  { id := 0, searchTerm := "batman", count := 3, movie_id := 1, title := "Batman",
    poster_url := some "https://image.tmdb.org/t/p/w500/p.jpg",
    release_date := some "2022-03-01", vote_average := 7,
    firstSearched := "T0", lastSearched := "T1" }

def sampleStore : Store := { docs := [sampleDoc], nextId := 1 }

/-- A store holding three records, two of them eligible, used for the C4
witness. -/
def trendStore : Store :=
  { docs :=
      [{ id := 0, searchTerm := "a", count := 3, movie_id := 1, title := "A",
         poster_url := none, release_date := none, vote_average := 0,
         firstSearched := "t", lastSearched := "t" },
       { id := 1, searchTerm := "b", count := 5, movie_id := 2, title := "B",
         poster_url := none, release_date := none, vote_average := 0,
         firstSearched := "t", lastSearched := "t" },
       { id := 2, searchTerm := "c", count := 0, movie_id := 3, title := "C",
         poster_url := none, release_date := none, vote_average := 0,
         firstSearched := "t", lastSearched := "t" }],
    nextId := 3 }

/-- A store holding 101 eligible records, exceeding the hard page-size cap. -/
def bigStore : Store :=
  { docs := (List.range 101).map (fun i =>
      { id := i, searchTerm := "t", count := 1, movie_id := 0, title := "T",
        poster_url := none, release_date := none, vote_average := 0,
        firstSearched := "s", lastSearched := "s" }),
    nextId := 101 }

/-! ## Helper lemmas -/

/-- The state component of the try body does not depend on how the ledger
promise settles. -/
lemma tryBody_state_ledger_indep (st : AppState) (query : String)
    (outcome : FetchOutcome) (l₁ l₂ : LedgerOutcome) :
    (tryBody st query outcome l₁).1 = (tryBody st query outcome l₂).1 := by
  cases outcome with
  | reject msg => rfl
  | httpError status text => rfl
  | success data =>
    rcases data with ⟨_ | (_ | ⟨first, rest⟩)⟩
    · rfl
    · rfl
    · rcases l₁ with r | m <;> rcases l₂ with r' | m' <;>
        simp only [tryBody] <;> split <;> rfl

/-- The try body never issues a network request. -/
lemma tryBody_no_request (st : AppState) (query : String) (outcome : FetchOutcome)
    (ledger : LedgerOutcome) :
    ∀ e ∈ (tryBody st query outcome ledger).2, isRequestEv e = false := by
  cases outcome with
  | reject msg => simp [tryBody, isRequestEv]
  | httpError status text => simp [tryBody, isRequestEv]
  | success data =>
    rcases data with ⟨_ | (_ | ⟨first, rest⟩)⟩
    · simp [tryBody, isRequestEv]
    · simp [tryBody, isRequestEv]
    · simp only [tryBody]
      split
      · rcases ledger with r | m <;> simp [isRequestEv]
      · simp [isRequestEv]

/-- The finally block never issues a network request. -/
lemma finallyStep_no_request (st : AppState) (b : Bool) :
    ∀ e ∈ (finallyStep st b).2, isRequestEv e = false := by
  rcases b <;> simp [finallyStep, isRequestEv]

/-- The state component of a pipeline run does not depend on how the ledger
promise settles. -/
lemma fetchMovies_state_ledger_indep (st : AppState) (query : String)
    (isRetry : Bool) (apiKey : Option String) (outcome : FetchOutcome)
    (l₁ l₂ : LedgerOutcome) :
    (fetchMovies st query isRetry apiKey outcome l₁).1 =
      (fetchMovies st query isRetry apiKey outcome l₂).1 := by
  simp only [fetchMovies]
  split
  · rfl
  · split
    · rfl
    · dsimp only
      rw [tryBody_state_ledger_indep _ query outcome l₁ l₂]

/-- A run skipped by the empty-query rule: empty query outside the first
load leaves the state untouched and produces no events. -/
lemma fetchMovies_skip (st : AppState) (isRetry : Bool) (apiKey : Option String)
    (outcome : FetchOutcome) (ledger : LedgerOutcome)
    (hinit : st.initialLoad = false) :
    fetchMovies st "" isRetry apiKey outcome ledger = (st, []) := by
  simp [fetchMovies, hinit]

/-- A run reaching the credential check with a falsy key: only the
configuration error message is set. -/
lemma fetchMovies_noKey (st : AppState) (query : String) (isRetry : Bool)
    (apiKey : Option String) (outcome : FetchOutcome) (ledger : LedgerOutcome)
    (hrun : query ≠ "" ∨ st.initialLoad = true) (hk : jsTruthy apiKey = false) :
    fetchMovies st query isRetry apiKey outcome ledger =
      ({ st with errorMessage := configErrorMsg }, [Ev.setErrorMessage configErrorMsg]) := by
  rcases hrun with hq | hinit
  · simp [fetchMovies, hq, hk]
  · simp [fetchMovies, hinit, hk]

/-- The complete shape of a successful run with a non-empty results list:
the final state and the ordered event trace. -/
lemma fetchMovies_success_run (st : AppState) (query : String) (isRetry : Bool)
    (key : String) (first : Movie) (rest : List Movie) (ledger : LedgerOutcome)
    (hrun : query ≠ "" ∨ st.initialLoad = true) (hk : key ≠ "") :
    fetchMovies st query isRetry (some key)
        (FetchOutcome.success ⟨some (first :: rest)⟩) ledger =
      ({ movieList := fallbackList (first :: rest), errorMessage := "",
         isLoading := false, isRetrying := false, initialLoad := false },
       (if isRetry then [Ev.setRetrying true] else [Ev.setLoading true]) ++
       [Ev.setErrorMessage "",
        Ev.request (if query ≠ "" then Endpoint.searchMovie query else Endpoint.discoverPopular),
        Ev.setMovieList (fallbackList (first :: rest))] ++
       (if query ≠ "" then
          Ev.recordCall query first ::
            (match ledger with
             | LedgerOutcome.resolved r => [Ev.ledgerSettled (LedgerOutcome.resolved r)]
             | LedgerOutcome.rejected m =>
               [Ev.ledgerSettled (LedgerOutcome.rejected m),
                Ev.warn ("Failed to update search count: " ++ m)])
        else []) ++
       ([Ev.setLoading false, Ev.setRetrying false] ++
        (if st.initialLoad then [Ev.setInitialLoad false] else []))) := by
  obtain ⟨ml, em, il, ir, init⟩ := st
  by_cases hq : query = ""
  · have hinit : init = true := by
      rcases hrun with h | h
      · exact absurd hq h
      · exact h
    subst hq hinit
    rcases isRetry <;> rcases ledger <;>
      simp [fetchMovies, tryBody, finallyStep, jsTruthy, hk]
  · rcases init <;> rcases isRetry <;> rcases ledger <;>
      simp [fetchMovies, tryBody, finallyStep, jsTruthy, hk, hq]

/-- The state after a successful run whose parsed body has an empty or
missing results list: the no-results branch. -/
lemma fetchMovies_empty_results_run (st : AppState) (query : String) (isRetry : Bool)
    (key : String) (data : TmdbData) (ledger : LedgerOutcome)
    (hrun : query ≠ "" ∨ st.initialLoad = true) (hk : key ≠ "")
    (hempty : data.results = none ∨ data.results = some []) :
    (fetchMovies st query isRetry (some key) (FetchOutcome.success data) ledger).1 =
      { movieList := [],
        errorMessage := if query ≠ "" then noResultsMsg query else noMoviesAvailableMsg,
        isLoading := false, isRetrying := false, initialLoad := false } := by
  obtain ⟨ml, em, il, ir, init⟩ := st
  rcases data with ⟨res⟩
  have hres : res = none ∨ res = some [] := by
    rcases hempty with h | h
    · exact Or.inl h
    · exact Or.inr h
  by_cases hq : query = ""
  · have hinit : init = true := by
      rcases hrun with h | h
      · exact absurd hq h
      · exact h
    subst hq hinit
    rcases hres with h | h <;> subst h <;> rcases isRetry <;>
      simp [fetchMovies, tryBody, finallyStep, jsTruthy, hk]
  · rcases hres with h | h <;> subst h <;> rcases init <;> rcases isRetry <;>
      simp [fetchMovies, tryBody, finallyStep, jsTruthy, hk, hq]

/-- The poster-filter fallback never produces the empty list from a
non-empty results list. -/
lemma fallbackList_ne_nil (first : Movie) (rest : List Movie) :
    fallbackList (first :: rest) ≠ [] := by
  unfold fallbackList
  dsimp only
  split
  · next h => exact List.ne_nil_of_length_pos h
  · exact List.cons_ne_nil first rest

/-! ## Claim theorems -/

/-- Claim C1, counterexample to the claim as stated: in a successful run with
the non-empty query "batman", the pipeline awaits the ledger call, so the
first busy-flag-clearing event comes after the ledger resolution in the event
trace — the busy-state is neither cleared before nor independently of the
ledger call's resolution. -/
theorem C1_counterexample :
    busyClearedBeforeLedger
      (fetchMovies sampleState "batman" false (some "key")
        (FetchOutcome.success ⟨some [sampleMovie]⟩)
        (LedgerOutcome.resolved none)).2 = false := by decide

/-- Claim C1 (amended): the pipeline awaits the ledger Record call, so busy
flags are cleared after the ledger resolution; nevertheless the final state
of any successful non-empty-query run is independent of the ledger outcome,
the busy flags end up cleared, the movie list is retained, a ledger
rejection is only logged as a warning, and the only error-message write in
such a run is the clearing write of the empty string — a ledger failure
never surfaces to the user and never aborts the pipeline. -/
theorem C1_ledger_awaited_but_isolated (st : AppState) (query : String)
    (isRetry : Bool) (key : String) (first : Movie) (rest : List Movie)
    (emsg : String) (hq : query ≠ "") (hk : key ≠ "") :
    (∀ l₁ l₂ : LedgerOutcome,
      (fetchMovies st query isRetry (some key)
          (FetchOutcome.success ⟨some (first :: rest)⟩) l₁).1 =
        (fetchMovies st query isRetry (some key)
          (FetchOutcome.success ⟨some (first :: rest)⟩) l₂).1) ∧
    (∀ ledger : LedgerOutcome,
      (fetchMovies st query isRetry (some key)
          (FetchOutcome.success ⟨some (first :: rest)⟩) ledger).1.isLoading = false ∧
      (fetchMovies st query isRetry (some key)
          (FetchOutcome.success ⟨some (first :: rest)⟩) ledger).1.isRetrying = false ∧
      (fetchMovies st query isRetry (some key)
          (FetchOutcome.success ⟨some (first :: rest)⟩) ledger).1.errorMessage = "" ∧
      (fetchMovies st query isRetry (some key)
          (FetchOutcome.success ⟨some (first :: rest)⟩) ledger).1.movieList ≠ [] ∧
      (∀ s, Ev.setErrorMessage s ∈
          (fetchMovies st query isRetry (some key)
            (FetchOutcome.success ⟨some (first :: rest)⟩) ledger).2 → s = "")) ∧
    (Ev.warn ("Failed to update search count: " ++ emsg) ∈
      (fetchMovies st query isRetry (some key)
        (FetchOutcome.success ⟨some (first :: rest)⟩)
        (LedgerOutcome.rejected emsg)).2) := by
  refine ⟨fun l₁ l₂ => fetchMovies_state_ledger_indep st query isRetry (some key) _ l₁ l₂,
    fun ledger => ?_, ?_⟩
  · rw [fetchMovies_success_run st query isRetry key first rest ledger (Or.inl hq) hk]
    refine ⟨rfl, rfl, rfl, fallbackList_ne_nil first rest, ?_⟩
    intro s hs
    rcases ledger with r | m <;> cases isRetry <;> cases h2 : st.initialLoad <;>
      simp [h2, hq] at hs <;> exact hs
  · rw [fetchMovies_success_run st query isRetry key first rest
      (LedgerOutcome.rejected emsg) (Or.inl hq) hk]
    simp [hq]

/-- Witness for C1 (amended) at a concrete successful search whose ledger
update rejects. -/
theorem C1_witness :
    (fetchMovies sampleState "batman" false (some "k")
        (FetchOutcome.success ⟨some [sampleMovie]⟩)
        (LedgerOutcome.rejected "boom")).1.errorMessage = "" ∧
    Ev.warn ("Failed to update search count: " ++ "boom") ∈
      (fetchMovies sampleState "batman" false (some "k")
        (FetchOutcome.success ⟨some [sampleMovie]⟩)
        (LedgerOutcome.rejected "boom")).2 :=
  ⟨((C1_ledger_awaited_but_isolated sampleState "batman" false "k" sampleMovie [] "boom"
      (by decide) (by decide)).2.1 (LedgerOutcome.rejected "boom")).2.2.1,
   (C1_ledger_awaited_but_isolated sampleState "batman" false "k" sampleMovie [] "boom"
      (by decide) (by decide)).2.2⟩

/-- Claim C2: for every provider response with a non-empty results list, the
pipeline keeps the entries with a truthy poster reference, falls back to the
full unfiltered list when that filter would remove every entry, and never
displays an empty list. -/
theorem C2_poster_filter_fallback (st : AppState) (query : String) (isRetry : Bool)
    (key : String) (results : List Movie) (ledger : LedgerOutcome)
    (hrun : query ≠ "" ∨ st.initialLoad = true) (hk : key ≠ "") (hres : results ≠ []) :
    ((fetchMovies st query isRetry (some key)
        (FetchOutcome.success ⟨some results⟩) ledger).1.movieList =
      (if results.filter (fun m => jsTruthy m.poster_path) = [] then results
       else results.filter (fun m => jsTruthy m.poster_path))) ∧
    (fetchMovies st query isRetry (some key)
        (FetchOutcome.success ⟨some results⟩) ledger).1.movieList ≠ [] := by
  rcases results with _ | ⟨first, rest⟩
  · exact absurd rfl hres
  · rw [fetchMovies_success_run st query isRetry key first rest ledger hrun hk]
    refine ⟨?_, fallbackList_ne_nil first rest⟩
    show fallbackList (first :: rest) = _
    by_cases hf : (first :: rest).filter (fun m => jsTruthy m.poster_path) = []
    · simp [fallbackList, hf]
    · have hpos : 0 < ((first :: rest).filter (fun m => jsTruthy m.poster_path)).length :=
        List.length_pos.mpr hf
      simp [fallbackList, hf, hpos]

/-- Two strings differing at some character position are distinct. -/
lemma string_ne_of_getElem {s t : String} (i : Nat) (h : s.data[i]? ≠ t.data[i]?) :
    s ≠ t :=
  fun he => h (by rw [he])

/-- Within its 21-character constant head, the no-results message does not
depend on the query. -/
lemma noResultsMsg_data_getElem (q : String) (i : Nat) (hi : i < 21) :
    (noResultsMsg q).data[i]? = ("No movies found for \"").data[i]? := by
  have h21 : ("No movies found for \"").data.length = 21 := rfl
  unfold noResultsMsg
  rw [String.data_append, String.data_append, List.append_assoc,
    List.getElem?_append, if_pos (by rw [h21]; exact hi)]

/-- The no-results message differs from every message the catch branch can
produce and from the empty-query no-results message, for every query. -/
lemma noResultsMsg_ne_catchMsgs (q : String) :
    noResultsMsg q ≠ invalidCredentialsMsg ∧ noResultsMsg q ≠ rateLimitMsg ∧
    noResultsMsg q ≠ networkErrorMsg ∧ noResultsMsg q ≠ genericErrorMsg ∧
    noResultsMsg q ≠ noMoviesAvailableMsg := by
  refine ⟨string_ne_of_getElem 0 ?_, string_ne_of_getElem 0 ?_,
    string_ne_of_getElem 1 ?_, string_ne_of_getElem 0 ?_,
    string_ne_of_getElem 10 ?_⟩
  · rw [noResultsMsg_data_getElem q 0 (by decide)]; decide
  · rw [noResultsMsg_data_getElem q 0 (by decide)]; decide
  · rw [noResultsMsg_data_getElem q 1 (by decide)]; decide
  · rw [noResultsMsg_data_getElem q 0 (by decide)]; decide
  · rw [noResultsMsg_data_getElem q 10 (by decide)]; decide

/-- Witness for C2 at a response whose single result lacks a poster: the
pipeline falls back to the full unfiltered list. -/
theorem C2_witness :
    ([sampleNoPoster] ≠ ([] : List Movie)) ∧
    (fetchMovies sampleState "ghost" false (some "k")
        (FetchOutcome.success ⟨some [sampleNoPoster]⟩)
        (LedgerOutcome.resolved none)).1.movieList = [sampleNoPoster] :=
  ⟨by decide, by
    have h := C2_poster_filter_fallback sampleState "ghost" false "k" [sampleNoPoster]
      (LedgerOutcome.resolved none) (Or.inl (by decide)) (by decide) (by decide)
    rw [h.1]; decide⟩

/-- Claim C7: a 2xx response with an empty or missing results list is
reported as a no-results condition: the movie list is set to empty, the
message references the query text when a query was present, a different
message is used when the query was empty, and in both cases the message is
distinct from every message the error catch branch can produce. -/
theorem C7_no_results_reported (st : AppState) (query : String) (isRetry : Bool)
    (key : String) (data : TmdbData) (ledger : LedgerOutcome)
    (hrun : query ≠ "" ∨ st.initialLoad = true) (hk : key ≠ "")
    (hempty : data.results = none ∨ data.results = some []) :
    ((fetchMovies st query isRetry (some key)
        (FetchOutcome.success data) ledger).1.movieList = []) ∧
    ((fetchMovies st query isRetry (some key)
        (FetchOutcome.success data) ledger).1.errorMessage =
      if query ≠ "" then noResultsMsg query else noMoviesAvailableMsg) ∧
    (query ≠ "" →
      (∃ a b, (fetchMovies st query isRetry (some key)
          (FetchOutcome.success data) ledger).1.errorMessage = a ++ query ++ b) ∧
      (fetchMovies st query isRetry (some key)
          (FetchOutcome.success data) ledger).1.errorMessage ≠ noMoviesAvailableMsg) ∧
    ((fetchMovies st query isRetry (some key)
        (FetchOutcome.success data) ledger).1.errorMessage ≠ invalidCredentialsMsg) ∧
    ((fetchMovies st query isRetry (some key)
        (FetchOutcome.success data) ledger).1.errorMessage ≠ rateLimitMsg) ∧
    ((fetchMovies st query isRetry (some key)
        (FetchOutcome.success data) ledger).1.errorMessage ≠ networkErrorMsg) ∧
    ((fetchMovies st query isRetry (some key)
        (FetchOutcome.success data) ledger).1.errorMessage ≠ genericErrorMsg) := by
  have hne := noResultsMsg_ne_catchMsgs query
  rw [fetchMovies_empty_results_run st query isRetry key data ledger hrun hk hempty]
  by_cases hq : query = ""
  · subst hq
    have hif : (if ("" : String) ≠ "" then noResultsMsg "" else noMoviesAvailableMsg)
        = noMoviesAvailableMsg := if_neg (by simp)
    refine ⟨rfl, rfl, fun h => absurd rfl h, ?_, ?_, ?_, ?_⟩ <;> rw [hif] <;> decide
  · have hif : (if query ≠ "" then noResultsMsg query else noMoviesAvailableMsg)
        = noResultsMsg query := if_pos hq
    refine ⟨rfl, rfl,
      fun _ => ⟨⟨"No movies found for \"", "\". Try different keywords.", ?_⟩, ?_⟩,
      ?_, ?_, ?_, ?_⟩ <;> rw [hif]
    · rfl
    · exact hne.2.2.2.2
    · exact hne.1
    · exact hne.2.1
    · exact hne.2.2.1
    · exact hne.2.2.2.1

/-- Witness for C7 at the spec's test query with a 2xx empty-results
response. -/
theorem C7_witness :
    (fetchMovies sampleState "zzzqqqnomatch" false (some "k")
        (FetchOutcome.success ⟨some []⟩)
        (LedgerOutcome.resolved none)).1.movieList = [] ∧
    (fetchMovies sampleState "zzzqqqnomatch" false (some "k")
        (FetchOutcome.success ⟨some []⟩)
        (LedgerOutcome.resolved none)).1.errorMessage = noResultsMsg "zzzqqqnomatch" ∧
    (∃ a b, (fetchMovies sampleState "zzzqqqnomatch" false (some "k")
        (FetchOutcome.success ⟨some []⟩)
        (LedgerOutcome.resolved none)).1.errorMessage = a ++ "zzzqqqnomatch" ++ b) ∧
    (fetchMovies sampleState "zzzqqqnomatch" false (some "k")
        (FetchOutcome.success ⟨some []⟩)
        (LedgerOutcome.resolved none)).1.errorMessage ≠ networkErrorMsg := by
  have h := C7_no_results_reported sampleState "zzzqqqnomatch" false "k" ⟨some []⟩
    (LedgerOutcome.resolved none) (Or.inl (by decide)) (by decide) (Or.inr rfl)
  exact ⟨h.1, by rw [h.2.1]; decide, (h.2.2.1 (by decide)).1, h.2.2.2.2.2.1⟩

/-- The try body contributes no network-request event to the trace. -/
lemma tryBody_filter_request (st : AppState) (q : String) (outcome : FetchOutcome)
    (ledger : LedgerOutcome) :
    ((tryBody st q outcome ledger).2.filter isRequestEv) = [] :=
  List.filter_eq_nil_iff.mpr (fun e he => by
    simp [tryBody_no_request st q outcome ledger e he])

/-- The finally block contributes no network-request event to the trace. -/
lemma finallyStep_filter_request (st : AppState) (b : Bool) :
    ((finallyStep st b).2.filter isRequestEv) = [] :=
  List.filter_eq_nil_iff.mpr (fun e he => by
    simp [finallyStep_no_request st b e he])

/-- Claim C8: once the debouncer settles, the pipeline receives the trimmed
search term, so a whitespace-only term behaves as the empty query: outside
the very first load the run is skipped entirely (state untouched, no events,
hence no network call); on the very first load, with a configured key, the
run issues exactly one network request, to the default discover/popular
endpoint, despite the empty query. -/
theorem C8_whitespace_query (st : AppState) (term : String) (isRetry : Bool)
    (apiKey : Option String) (outcome : FetchOutcome) (ledger : LedgerOutcome)
    (hws : jsTrim term = "") :
    (st.initialLoad = false →
      fetchMovies st (debouncedQuery term) isRetry apiKey outcome ledger = (st, [])) ∧
    (st.initialLoad = true → jsTruthy apiKey = true →
      (fetchMovies st (debouncedQuery term) isRetry apiKey outcome ledger).2.filter
          isRequestEv = [Ev.request Endpoint.discoverPopular]) := by
  have hdq : debouncedQuery term = "" := hws
  rw [hdq]
  constructor
  · intro hinit
    exact fetchMovies_skip st isRetry apiKey outcome ledger hinit
  · intro hinit hkey
    cases isRetry <;>
      simp [fetchMovies, hinit, hkey, List.filter_append, tryBody_filter_request,
        finallyStep_filter_request, isRequestEv]

/-- Witness for C8 at the whitespace-only term made of three spaces. -/
theorem C8_witness :
    (jsTrim "   " = "") ∧
    fetchMovies sampleState (debouncedQuery "   ") false (some "k")
        (FetchOutcome.reject "x") (LedgerOutcome.resolved none) = (sampleState, []) ∧
    (fetchMovies { sampleState with initialLoad := true } (debouncedQuery "   ") false
        (some "k") (FetchOutcome.reject "x") (LedgerOutcome.resolved none)).2.filter
        isRequestEv = [Ev.request Endpoint.discoverPopular] :=
  ⟨by decide,
   (C8_whitespace_query sampleState "   " false (some "k") (FetchOutcome.reject "x")
      (LedgerOutcome.resolved none) (by decide)).1 rfl,
   (C8_whitespace_query { sampleState with initialLoad := true } "   " false (some "k")
      (FetchOutcome.reject "x") (LedgerOutcome.resolved none) (by decide)).2 rfl rfl⟩

/-- Helper for C6: when any document-store identifier is missing, module-load
validation throws. -/
lemma validateEnvVars_error_of_missing (env : AppwriteEnv)
    (h : jsTruthy env.projectId = false ∨ jsTruthy env.databaseId = false ∨
      jsTruthy env.collectionId = false) :
    ∃ msg, validateEnvVars env = Except.error msg := by
  have hlen : 0 < ((if !jsTruthy env.projectId then ["VITE_APPWRITE_PROJECT_ID"] else []) ++
      (if !jsTruthy env.databaseId then ["VITE_APPWRITE_DATABASE_ID"] else []) ++
      (if !jsTruthy env.collectionId then ["VITE_APPWRITE_COLLECTION_ID"] else [])).length := by
    rcases h with h | h | h <;> simp [h, List.length_append]
  unfold validateEnvVars
  dsimp only
  rw [if_pos hlen]
  exact ⟨_, rfl⟩

/-- Claim C6 (amended): with a missing provider credential no invocation of
the pipeline ever issues a network request; every invocation that is not
skipped by the empty-query rule (non-empty query or very first load) fails
immediately with the configuration-error message; an invocation skipped by
the empty-query rule does nothing at all. With any document-store identifier
missing, module-load validation fails before any ledger operation is
constructed. -/
theorem C6_missing_config (st : AppState) (query : String) (isRetry : Bool)
    (apiKey : Option String) (outcome : FetchOutcome) (ledger : LedgerOutcome)
    (env : AppwriteEnv) (hk : jsTruthy apiKey = false) :
    ((fetchMovies st query isRetry apiKey outcome ledger).2.filter isRequestEv = []) ∧
    (query ≠ "" ∨ st.initialLoad = true →
      fetchMovies st query isRetry apiKey outcome ledger =
        ({ st with errorMessage := configErrorMsg },
         [Ev.setErrorMessage configErrorMsg])) ∧
    (jsTruthy env.projectId = false ∨ jsTruthy env.databaseId = false ∨
        jsTruthy env.collectionId = false →
      ∃ msg, appwriteModuleInit env = Except.error msg) := by
  refine ⟨?_, fun hrun => fetchMovies_noKey st query isRetry apiKey outcome ledger hrun hk,
    fun hmiss => ?_⟩
  · by_cases hq : query = ""
    · cases hinit : st.initialLoad with
      | true =>
        rw [fetchMovies_noKey st query isRetry apiKey outcome ledger (Or.inr hinit) hk]
        simp [isRequestEv]
      | false =>
        subst hq
        rw [fetchMovies_skip st isRetry apiKey outcome ledger hinit]
        rfl
    · rw [fetchMovies_noKey st query isRetry apiKey outcome ledger (Or.inl hq) hk]
      simp [isRequestEv]
  · obtain ⟨msg, hmsg⟩ := validateEnvVars_error_of_missing env hmiss
    exact ⟨msg, by simp [appwriteModuleInit, hmsg, Except.map]⟩

/-- Claim C6, counterexample to the claim as stated: with the credential
missing but an empty query outside the first load, the invocation is skipped
silently — it performs no network request, but it also does not fail with a
configuration-error message (no event is emitted and the error message stays
empty). -/
theorem C6_counterexample :
    (fetchMovies sampleState "" false none (FetchOutcome.reject "x")
        (LedgerOutcome.resolved none)).1.errorMessage ≠ configErrorMsg ∧
    (fetchMovies sampleState "" false none (FetchOutcome.reject "x")
        (LedgerOutcome.resolved none)).2 = [] := by decide

/-- Witness for C6 (amended) at a missing key, a non-empty query and an
environment lacking the project identifier. -/
theorem C6_witness :
    jsTruthy none = false ∧
    fetchMovies sampleState "batman" false none (FetchOutcome.reject "x")
        (LedgerOutcome.resolved none) =
      ({ sampleState with errorMessage := configErrorMsg },
       [Ev.setErrorMessage configErrorMsg]) ∧
    (∃ msg, appwriteModuleInit ⟨none, some "db", some "col"⟩ = Except.error msg) := by
  have h := C6_missing_config sampleState "batman" false none (FetchOutcome.reject "x")
    (LedgerOutcome.resolved none) ⟨none, some "db", some "col"⟩ rfl
  exact ⟨rfl, h.2.1 (Or.inl (by decide)), h.2.2 (Or.inl rfl)⟩

/-- Claim C10: with an absent/falsy search term or movie argument, or a term
that is empty after trimming and lower-casing, `updateSearchCount` returns
null without attempting any document-store operation. -/
theorem C10_invalid_inputs_no_ops (store : Store) (term : String)
    (movie : Option Movie) (now : String) (fail : DbFail)
    (h : term = "" ∨ movie = none ∨ sanitize term = "") :
    updateSearchCount store term movie now fail = (store, none, []) := by
  rcases h with h | h | h
  · subst h; simp [updateSearchCount]
  · subst h; simp [updateSearchCount]
  · rcases movie with _ | mv
    · simp [updateSearchCount]
    · by_cases ht : term = ""
      · subst ht; simp [updateSearchCount]
      · simp [updateSearchCount, ht, h]

/-- Witness for C10 at a whitespace-only term with a present movie. -/
theorem C10_witness :
    (sanitize "   " = "") ∧
    updateSearchCount sampleStore "   " (some sampleMovie) "T2" DbFail.ok =
      (sampleStore, none, []) :=
  ⟨by decide,
   C10_invalid_inputs_no_ops sampleStore "   " (some sampleMovie) "T2" DbFail.ok
     (Or.inr (Or.inr (by decide)))⟩

/-- Claim C5: `updateSearchCount` normalizes the term by trimming and
lower-casing and looks up the first document whose term equals the
normalized term exactly; on a hit it returns the document with the counter
incremented by one, the title/poster snapshot refreshed and the last-seen
timestamp set to now; on a miss it returns a freshly created document with
counter 1 and both timestamps set to now; on any store failure it returns
null (and leaves the store unchanged) instead of raising. -/
theorem C5_record_contract (store : Store) (term : String) (mv : Movie)
    (now : String) (hsan : sanitize term ≠ "") :
    (∀ fail, fail ≠ DbFail.ok →
      (updateSearchCount store term (some mv) now fail).1 = store ∧
      (updateSearchCount store term (some mv) now fail).2.1 = none) ∧
    (∀ doc, store.docs.find? (fun d => d.searchTerm = sanitize term) = some doc →
      (updateSearchCount store term (some mv) now DbFail.ok).2.1 =
        some { doc with
               count := doc.count + 1
               lastSearched := now
               title := mv.title
               poster_url := posterUrlOf mv }) ∧
    (store.docs.find? (fun d => d.searchTerm = sanitize term) = none →
      (updateSearchCount store term (some mv) now DbFail.ok).2.1 =
        some { id := store.nextId, searchTerm := sanitize term, count := 1,
               movie_id := mv.id, title := mv.title, poster_url := posterUrlOf mv,
               release_date := orNullStr mv.release_date,
               vote_average := mv.vote_average.getD 0,
               firstSearched := now, lastSearched := now }) := by
  have hterm : term ≠ "" := fun he => hsan (by rw [he]; rfl)
  refine ⟨fun fail hfail => ?_, fun doc hdoc => ?_, fun hmiss => ?_⟩
  · rcases fail with _ | _ | _
    · exact absurd rfl hfail
    · simp [updateSearchCount, hterm, hsan]
    · cases hf : store.docs.find? (fun d => d.searchTerm = sanitize term) <;>
        simp [updateSearchCount, hterm, hsan, hf]
  · simp [updateSearchCount, hterm, hsan, hdoc, updatedDocFor]
  · simp [updateSearchCount, hterm, hsan, hmiss, newDocFor]

/-- Witness for C5: a failing lookup yields null; a successful call on an
existing record returns it with the counter incremented and the snapshot
refreshed. -/
theorem C5_witness :
    (sanitize " Batman " ≠ "") ∧
    (updateSearchCount sampleStore " Batman " (some sampleMovie) "T2"
        DbFail.onList).2.1 = none ∧
    (updateSearchCount sampleStore " Batman " (some sampleMovie) "T2"
        DbFail.ok).2.1 =
      some { sampleDoc with
             count := 4
             lastSearched := "T2"
             title := "Batman"
             poster_url := posterUrlOf sampleMovie } := by
  have h := C5_record_contract sampleStore " Batman " sampleMovie "T2" (by decide)
  exact ⟨by decide, (h.1 DbFail.onList (by decide)).2, h.2.1 sampleDoc (by decide)⟩

/-- The number of records `getTrendingMovies` returns on a successful store
interaction: the requested page size capped by the number of eligible
documents. -/
lemma getTrendingMovies_length (store : Store) (limit : Nat) :
    (getTrendingMovies store true limit).length =
      min (trendingQueryLimit limit)
        ((store.docs.filter (fun d => 0 < d.count)).length) := by
  simp [getTrendingMovies, listTrendingDocs, List.length_take,
    (List.perm_insertionSort countGE _).length_eq]

/-- Claim C9: the page size requested from the store is `min(limit, 100)`
— at most 100 even for larger limits — so the result never exceeds 100
records, and an omitted limit defaults to 10. -/
theorem C9_limit_cap (limit : Nat) (hl : 100 < limit) :
    trendingQueryLimit limit = 100 ∧
    (∀ store dbOk, (getTrendingMovies store dbOk limit).length ≤ 100) ∧
    (∀ store dbOk, getTrendingMovies store dbOk = getTrendingMovies store dbOk 10) := by
  refine ⟨Nat.min_eq_right (Nat.le_of_lt hl), fun store dbOk => ?_, fun store dbOk => rfl⟩
  cases dbOk
  · simp [getTrendingMovies]
  · rw [getTrendingMovies_length]
    simp only [trendingQueryLimit]
    omega

/-- Witness for C9 at limit 150. -/
theorem C9_witness :
    trendingQueryLimit 150 = 100 ∧
    getTrendingMovies sampleStore true = getTrendingMovies sampleStore true 10 :=
  ⟨(C9_limit_cap 150 (by decide)).1,
   (C9_limit_cap 150 (by decide)).2.2 sampleStore true⟩

/-- Claim C4 (amended): `getTrendingMovies limit` returns at most `limit`
records, each with a positive counter, in non-strictly decreasing counter
order; with at least `limit` eligible records it returns exactly
`min(limit, 100)` records (exactly `limit` only when `limit ≤ 100`); on any
store failure it returns the empty list. -/
theorem C4_trending_contract (store : Store) (limit : Nat) (dbOk : Bool) :
    ((getTrendingMovies store dbOk limit).length ≤ limit) ∧
    (∀ m ∈ getTrendingMovies store dbOk limit, 0 < m.count) ∧
    (List.Sorted (fun a b : TrendingMovie => b.count ≤ a.count)
      (getTrendingMovies store dbOk limit)) ∧
    (dbOk = true →
      limit ≤ (store.docs.filter (fun d => 0 < d.count)).length →
      (getTrendingMovies store dbOk limit).length = trendingQueryLimit limit) ∧
    (dbOk = false → getTrendingMovies store dbOk limit = []) := by
  cases dbOk
  · exact ⟨by simp [getTrendingMovies], by simp [getTrendingMovies],
      by simp [getTrendingMovies], fun h => absurd h (by decide), fun _ => rfl⟩
  · have hsorted := List.sorted_insertionSort countGE
      (store.docs.filter (fun d => 0 < d.count))
    have hperm := List.perm_insertionSort countGE
      (store.docs.filter (fun d => 0 < d.count))
    refine ⟨?_, ?_, ?_, fun _ hN => ?_, fun h => absurd h (by decide)⟩
    · rw [getTrendingMovies_length]
      simp only [trendingQueryLimit]
      omega
    · intro m hm
      simp only [getTrendingMovies, if_pos, listTrendingDocs, List.mem_map] at hm
      obtain ⟨d, hd, rfl⟩ := hm
      have hd1 : d ∈ List.insertionSort countGE
          (store.docs.filter (fun d => 0 < d.count)) :=
        List.mem_of_mem_take hd
      have hd2 : d ∈ store.docs.filter (fun d => 0 < d.count) :=
        hperm.mem_iff.mp hd1
      have := (List.mem_filter.mp hd2).2
      simpa [transformDoc] using this
    · have hs1 : List.Sorted countGE
          ((List.insertionSort countGE
            (store.docs.filter (fun d => 0 < d.count))).take (trendingQueryLimit limit)) :=
        List.Pairwise.sublist (List.take_sublist _ _) hsorted
      exact List.Pairwise.map transformDoc (fun a b h => h) hs1
    · rw [getTrendingMovies_length]
      exact Nat.min_eq_left (Nat.le_trans (Nat.min_le_left _ _) hN)

/-- Witness for C4 (amended) at a store with two eligible records and
limit 2. -/
theorem C4_witness :
    ((getTrendingMovies trendStore true 2).length ≤ 2) ∧
    ((getTrendingMovies trendStore true 2).length = trendingQueryLimit 2) ∧
    (getTrendingMovies trendStore false 2 = []) :=
  ⟨(C4_trending_contract trendStore 2 true).1,
   (C4_trending_contract trendStore 2 true).2.2.2.1 rfl (by decide),
   (C4_trending_contract trendStore 2 false).2.2.2.2 rfl⟩

/-- Claim C4, counterexample to the claim as stated: with 101 eligible
records and limit 101, `getTrendingMovies` returns 100 records, not 101 —
the page size is silently capped at 100. -/
theorem C4_counterexample :
    101 ≤ (bigStore.docs.filter (fun d => 0 < d.count)).length ∧
    (getTrendingMovies bigStore true 101).length ≠ 101 := by
  have hf : (bigStore.docs.filter (fun d => 0 < d.count)).length = 101 := by
    rw [List.filter_eq_self.mpr]
    · simp [bigStore]
    · intro a ha
      simp only [bigStore, List.mem_map, List.mem_range] at ha
      obtain ⟨i, _, rfl⟩ := ha
      rfl
  constructor
  · rw [hf]
  · rw [getTrendingMovies_length, hf]
    simp [trendingQueryLimit]

/-! ## Counter invariant (C3) -/

/-- `find?` over a concatenation tries the left list first. -/
lemma find?_append_or {α : Type} (p : α → Bool) (l₁ l₂ : List α) :
    (l₁ ++ l₂).find? p = ((l₁.find? p).or (l₂.find? p)) := by
  induction l₁ with
  | nil => simp [Option.or]
  | cons a l ihl =>
    by_cases hp : p a
    · simp [List.find?_cons_of_pos _ hp, Option.or]
    · simp [List.find?_cons_of_neg _ hp, ihl]

/-- `find?` over a list in which exactly the found document has been
replaced (by one with the same searched term): the lookup for the searched
term now yields the replacement, and lookups for other terms are
unchanged. Requires pairwise-distinct ids. -/
lemma find?_map_update (s t : String) (doc updated : SearchDoc)
    (hterm : updated.searchTerm = s) (docs : List SearchDoc) :
    (docs.map (fun d => d.id)).Nodup →
    docs.find? (fun d => d.searchTerm = s) = some doc →
    ((docs.map (fun d => if d.id = doc.id then updated else d)).find?
        (fun d => d.searchTerm = s) = some updated) ∧
    (t ≠ s → (docs.map (fun d => if d.id = doc.id then updated else d)).find?
        (fun d => d.searchTerm = t) = docs.find? (fun d => d.searchTerm = t)) := by
  induction docs with
  | nil => intro _ hfound; simp at hfound
  | cons d ds ih =>
    intro hnd hfound
    simp only [List.map_cons, List.nodup_cons] at hnd
    obtain ⟨hd_nin, hnd'⟩ := hnd
    by_cases hp : d.searchTerm = s
    · have hdoc : doc = d := by
        rw [List.find?_cons_of_pos _ (by simp [hp])] at hfound
        exact (Option.some.inj hfound).symm
      subst hdoc
      have hmap : ds.map (fun d' => if d'.id = doc.id then updated else d') = ds := by
        rw [show (fun d' => if d'.id = doc.id then updated else d') =
            (fun d' : SearchDoc => if d'.id = doc.id then updated else id d') from rfl]
        calc ds.map (fun d' => if d'.id = doc.id then updated else id d')
            = ds.map id := by
              apply List.map_congr_left
              intro a ha
              rw [if_neg]
              intro hid
              exact hd_nin (hid ▸ List.mem_map_of_mem (fun x => x.id) ha)
          _ = ds := List.map_id ds
      constructor
      · rw [List.map_cons, if_pos rfl, hmap, List.find?_cons_of_pos _ (by simp [hterm])]
      · intro ht
        rw [List.map_cons, if_pos rfl, hmap,
          List.find?_cons_of_neg _ (by simp [hterm]; exact fun h => ht h.symm),
          List.find?_cons_of_neg _ (by simp [hp]; exact fun h => ht h.symm)]
    · have hfound' : ds.find? (fun d' => d'.searchTerm = s) = some doc := by
        rwa [List.find?_cons_of_neg _ (by simp [hp])] at hfound
      have hdoc_mem : doc ∈ ds := List.mem_of_find?_eq_some hfound'
      have hid_ne : ¬ d.id = doc.id :=
        fun h => hd_nin (h ▸ List.mem_map_of_mem (fun x => x.id) hdoc_mem)
      obtain ⟨ih1, ih2⟩ := ih hnd' hfound'
      constructor
      · rw [List.map_cons, if_neg hid_ne, List.find?_cons_of_neg _ (by simp [hp])]
        exact ih1
      · intro ht
        by_cases hq : d.searchTerm = t
        · rw [List.map_cons, if_neg hid_ne, List.find?_cons_of_pos _ (by simp [hq]),
            List.find?_cons_of_pos _ (by simp [hq])]
        · rw [List.map_cons, if_neg hid_ne, List.find?_cons_of_neg _ (by simp [hq]),
            List.find?_cons_of_neg _ (by simp [hq])]
          exact ih2 ht

/-- The shape of a successful `updateSearchCount` call that finds an
existing record. -/
lemma updateSearchCount_found (store : Store) (term : String) (mv : Movie)
    (now : String) (doc : SearchDoc) (hterm : term ≠ "") (hsan : sanitize term ≠ "")
    (hfind : store.docs.find? (fun d => d.searchTerm = sanitize term) = some doc) :
    updateSearchCount store term (some mv) now DbFail.ok =
      ({ store with docs := store.docs.map (fun d =>
          if d.id = doc.id then updatedDocFor doc mv now else d) },
       some (updatedDocFor doc mv now),
       [DbOp.listDocs (sanitize term), DbOp.updateDoc doc.id]) := by
  simp [updateSearchCount, hterm, hsan, hfind]

/-- The shape of a successful `updateSearchCount` call that creates a new
record. -/
lemma updateSearchCount_create (store : Store) (term : String) (mv : Movie)
    (now : String) (hterm : term ≠ "") (hsan : sanitize term ≠ "")
    (hfind : store.docs.find? (fun d => d.searchTerm = sanitize term) = none) :
    updateSearchCount store term (some mv) now DbFail.ok =
      ({ docs := store.docs ++ [newDocFor store.nextId (sanitize term) mv now],
         nextId := store.nextId + 1 },
       some (newDocFor store.nextId (sanitize term) mv now),
       [DbOp.listDocs (sanitize term), DbOp.createDoc store.nextId]) := by
  simp [updateSearchCount, hterm, hsan, hfind]

/-- The stored counter after replacing the found document with its
incremented version. -/
lemma countOf_update_found (store : Store) (term : String) (mv : Movie)
    (now : String) (doc : SearchDoc) (t : String)
    (hnd : (store.docs.map (fun d => d.id)).Nodup)
    (hfind : store.docs.find? (fun d => d.searchTerm = sanitize term) = some doc) :
    countOf { store with docs := store.docs.map (fun d =>
        if d.id = doc.id then updatedDocFor doc mv now else d) } t =
      countOf store t + (if sanitize term = t then 1 else 0) := by
  have hts : (updatedDocFor doc mv now).searchTerm = sanitize term := by
    have h := List.find?_some hfind
    simp only [decide_eq_true_eq] at h
    simpa [updatedDocFor] using h
  obtain ⟨hu1, hu2⟩ :=
    find?_map_update (sanitize term) t doc (updatedDocFor doc mv now) hts store.docs
      hnd hfind
  by_cases h : sanitize term = t
  · subst h
    unfold countOf
    dsimp only
    rw [hu1, hfind]
    simp [updatedDocFor]
  · unfold countOf
    dsimp only
    rw [hu2 (fun he => h he.symm), if_neg h]
    omega

/-- The stored counter after appending a fresh record for an unseen term. -/
lemma countOf_append_new (docs : List SearchDoc) (nid : Nat) (newDoc : SearchDoc)
    (t : String) (hcount : newDoc.count = 1)
    (hfind : docs.find? (fun d => d.searchTerm = newDoc.searchTerm) = none) :
    countOf ⟨docs ++ [newDoc], nid⟩ t =
      countOf ⟨docs, nid⟩ t + (if newDoc.searchTerm = t then 1 else 0) := by
  unfold countOf
  dsimp only
  rw [find?_append_or]
  by_cases h : newDoc.searchTerm = t
  · subst h
    rw [hfind, List.find?_cons_of_pos _ (by simp)]
    simp [Option.or, hcount]
  · rw [List.find?_cons_of_neg _ (by simp [h]), if_neg h]
    cases docs.find? (fun d => d.searchTerm = t) <;> simp [Option.or]

/-- The stored counter after one Record call: incremented by one for the
call's normalized term when the call passes validation and the store
succeeds; unchanged for every other term. -/
lemma countOf_recordStep (store : Store) (c : RecordCall) (t : String)
    (hwf : storeWF store) :
    countOf (recordStep store c) t =
      countOf store t + (if recordHits c t then 1 else 0) := by
  obtain ⟨hnd, hlt⟩ := hwf
  rcases c with ⟨term, movie, now, fail⟩
  rcases movie with _ | mv
  · simp [recordStep, updateSearchCount, recordHits]
  · by_cases ht : term = ""
    · simp [recordStep, updateSearchCount, recordHits, ht]
    · by_cases hs : sanitize term = ""
      · simp [recordStep, updateSearchCount, recordHits, ht, hs]
      · rcases fail with _ | _ | _
        · cases hfind : store.docs.find? (fun d => d.searchTerm = sanitize term) with
          | some doc =>
            have hshape := updateSearchCount_found store term mv now doc ht hs hfind
            unfold recordStep
            rw [hshape]
            dsimp only
            rw [countOf_update_found store term mv now doc t hnd hfind]
            simp [recordHits, ht, hs]
          | none =>
            have hshape := updateSearchCount_create store term mv now ht hs hfind
            unfold recordStep
            rw [hshape]
            dsimp only
            rw [countOf_append_new store.docs (store.nextId + 1)
              (newDocFor store.nextId (sanitize term) mv now) t rfl
              (by simpa [newDocFor] using hfind)]
            simp [recordHits, ht, hs, newDocFor, countOf]
        · simp [recordStep, updateSearchCount, recordHits, ht, hs]
        · cases hfind : store.docs.find? (fun d => d.searchTerm = sanitize term) <;>
            simp [recordStep, updateSearchCount, recordHits, ht, hs, hfind]

/-- The replaced-document map leaves the id column untouched. -/
lemma ids_map_update (docs : List SearchDoc) (doc updated : SearchDoc)
    (hid : updated.id = doc.id) :
    ((docs.map (fun d => if d.id = doc.id then updated else d)).map
      (fun d => d.id)) = docs.map (fun d => d.id) := by
  rw [List.map_map]
  apply List.map_congr_left
  intro a _
  by_cases h : a.id = doc.id
  · simp [Function.comp, h, hid]
  · simp [Function.comp, h]

/-- Store well-formedness is preserved by every Record call. -/
lemma storeWF_recordStep (store : Store) (c : RecordCall) (hwf : storeWF store) :
    storeWF (recordStep store c) := by
  obtain ⟨hnd, hlt⟩ := hwf
  rcases c with ⟨term, movie, now, fail⟩
  rcases movie with _ | mv
  · simp only [recordStep, updateSearchCount]
    simp
    exact ⟨hnd, hlt⟩
  · by_cases ht : term = ""
    · simp only [recordStep, updateSearchCount]
      simp [ht]
      exact ⟨hnd, hlt⟩
    · by_cases hs : sanitize term = ""
      · simp only [recordStep, updateSearchCount]
        simp [ht, hs]
        exact ⟨hnd, hlt⟩
      · rcases fail with _ | _ | _
        · cases hfind : store.docs.find? (fun d => d.searchTerm = sanitize term) with
          | some doc =>
            have hshape := updateSearchCount_found store term mv now doc ht hs hfind
            unfold recordStep
            rw [hshape]
            refine ⟨?_, ?_⟩
            · dsimp only
              rw [ids_map_update store.docs doc (updatedDocFor doc mv now) rfl]
              exact hnd
            · intro d hd
              dsimp only at hd ⊢
              obtain ⟨a, ha, rfl⟩ := List.mem_map.mp hd
              by_cases hida : a.id = doc.id
              · have hdoc_mem : doc ∈ store.docs := List.mem_of_find?_eq_some hfind
                simpa [hida, updatedDocFor] using hlt doc hdoc_mem
              · simpa [hida] using hlt a ha
          | none =>
            have hshape := updateSearchCount_create store term mv now ht hs hfind
            unfold recordStep
            rw [hshape]
            refine ⟨?_, ?_⟩
            · dsimp only
              rw [List.map_append, List.nodup_append]
              refine ⟨hnd, by simp, ?_⟩
              intro x hx hx2
              simp only [List.map_cons, List.map_nil, List.mem_singleton] at hx2
              obtain ⟨a, ha, rfl⟩ := List.mem_map.mp hx
              have hb := hlt a ha
              simp only [newDocFor] at hx2
              omega
            · intro d hd
              dsimp only at hd ⊢
              rw [List.mem_append] at hd
              rcases hd with hd | hd
              · exact Nat.lt_succ_of_lt (hlt d hd)
              · simp only [List.mem_singleton] at hd
                subst hd
                simp [newDocFor]
        · simp only [recordStep, updateSearchCount]
          simp [ht, hs]
          exact ⟨hnd, hlt⟩
        · cases hfind : store.docs.find? (fun d => d.searchTerm = sanitize term) <;>
            · simp only [recordStep, updateSearchCount]
              simp [ht, hs, hfind]
              exact ⟨hnd, hlt⟩

/-- The stored counter after a sequence of Record calls, from any
well-formed starting store. -/
lemma countOf_applyRecords (calls : List RecordCall) (store : Store) (t : String)
    (hwf : storeWF store) :
    countOf (applyRecords store calls) t =
      countOf store t + (calls.filter (fun c => recordHits c t)).length := by
  induction calls generalizing store with
  | nil => simp [applyRecords]
  | cons c cs ih =>
    have h1 := countOf_recordStep store c t hwf
    have h3 := ih (recordStep store c) (storeWF_recordStep store c hwf)
    show countOf (applyRecords (recordStep store c) cs) t = _
    rw [h3, h1]
    cases hrec : recordHits c t <;> (simp [List.filter_cons, hrec]; try omega)

/-- The empty store is well-formed. -/
lemma storeWF_empty : storeWF emptyStore := by
  constructor <;> simp [emptyStore]

/-- Claim C3: for every well-formed store, one Record call never decreases
any stored counter; it stores exactly old count + 1 for its normalized term
(so a creating call stores 1, since the absent counter reads 0) and leaves
every other counter unchanged; and across any sequence of Record calls from
an empty store the counter of a normalized term equals the number of calls
whose inputs are valid, whose store operations succeed, and whose term
normalizes (trim + lower-case) to that term. -/
theorem C3_counter_invariant :
    (∀ store c t, storeWF store →
      countOf store t ≤ countOf (recordStep store c) t) ∧
    (∀ store c t, storeWF store →
      countOf (recordStep store c) t =
        countOf store t + (if recordHits c t then 1 else 0)) ∧
    (∀ calls t,
      countOf (applyRecords emptyStore calls) t =
        (calls.filter (fun c => recordHits c t)).length) := by
  refine ⟨fun store c t hwf => ?_,
    fun store c t hwf => countOf_recordStep store c t hwf,
    fun calls t => ?_⟩
  · rw [countOf_recordStep store c t hwf]
    exact Nat.le_add_right _ _
  · have h := countOf_applyRecords calls emptyStore t storeWF_empty
    simpa [countOf, emptyStore] using h

/-- Witness for C3: one call on an existing record increments its counter;
three calls from the empty store, two of which normalize to "batman", leave
that counter at exactly 2. -/
theorem C3_witness :
    storeWF sampleStore ∧
    countOf (recordStep sampleStore ⟨" Batman ", some sampleMovie, "T2", DbFail.ok⟩)
        "batman" = countOf sampleStore "batman" + 1 ∧
    countOf (applyRecords emptyStore
        [⟨"Batman", some sampleMovie, "T0", DbFail.ok⟩,
         ⟨" batman ", some sampleNoPoster, "T1", DbFail.ok⟩,
         ⟨"other", some sampleMovie, "T2", DbFail.ok⟩]) "batman" = 2 := by
  have hwf : storeWF sampleStore := ⟨by decide, by decide⟩
  refine ⟨hwf, ?_, ?_⟩
  · have h := C3_counter_invariant.2.1 sampleStore
      ⟨" Batman ", some sampleMovie, "T2", DbFail.ok⟩ "batman" hwf
    rw [h]
    decide
  · have h := C3_counter_invariant.2.2
      [⟨"Batman", some sampleMovie, "T0", DbFail.ok⟩,
       ⟨" batman ", some sampleNoPoster, "T1", DbFail.ok⟩,
       ⟨"other", some sampleMovie, "T2", DbFail.ok⟩] "batman"
    rw [h]
    decide

end MovieApp
